import Mathlib

/-!
# Verification of the `claude-mcp` search server

Shallow embedding of the Python sources under `src/search_server/`
(`knowledge_base.py`, `search_engine.py`, `web_scraper.py`, `server.py`)
and proofs of the frozen claims about them.

JSON values and Python dictionaries decoded from JSON are both modelled by
`JValue`; JSON numbers are modelled as rationals (`ℚ`).  The outcome of a
single outbound HTTP call is modelled by `Outcome`: a network error, a
timeout, or a response carrying an HTTP status code, the raw body text, and
the result of JSON-decoding that text (`none` when the body is not valid
JSON).  Python exceptions are modelled by `PyExn`; a function that can raise
returns `Except PyExn _`.
-/

set_option autoImplicit false

/-- A JSON value / JSON-decoded Python object.  Numbers are modelled as `ℚ`
(Python floats and ints are collapsed; no claim depends on float rounding). -/
inductive JValue where
  | null
  | bool (b : Bool)
  | num (q : ℚ)
  | str (s : String)
  | arr (elems : List JValue)
  | obj (entries : List (String × JValue))

/-- Python exceptions raised by the embedded code.  `requestExn` stands for
`requests.exceptions.RequestException` and all of its subclasses
(`ConnectionError`, `Timeout`, `HTTPError`, `JSONDecodeError`); the message
carries `str(e)`. -/
inductive PyExn where
  | requestExn (msg : String)
  | attributeError
  | typeError
  | valueError (msg : String)
  | keyError (k : String)
deriving DecidableEq, Repr

/-- The upstream outcome of one outbound HTTP call: connection-level failure,
timeout, or a response with status code, raw body text, and the JSON decoding
of that text (`none` when the body fails to parse as JSON). -/
inductive Outcome where
  | netError (msg : String)
  | timeout (msg : String)
  | response (status : Nat) (text : String) (json : Option JValue)

/-- Lookup in a JSON-decoded Python dict (keys are unique after JSON
decoding), with a default — the value side of Python's `d.get(k, default)`. -/
def dictGet (entries : List (String × JValue)) (k : String) (d : JValue) : JValue :=
  match entries with
  | [] => d
  | (k', v) :: rest => if k' = k then v else dictGet rest k d

/-- Python `x.get(k, default)`: succeeds on a dict, raises `AttributeError`
on every other JSON-decoded value (`int`, `list`, `str`, ...). -/
def pyGetD (j : JValue) (k : String) (d : JValue) : Except PyExn JValue :=
  match j with
  | .obj entries => .ok (dictGet entries k d)
  | _ => .error .attributeError

/-- Python `x.get(k)` (default `None`). -/
def pyGet (j : JValue) (k : String) : Except PyExn JValue :=
  pyGetD j k .null

/-- Python `x[k]` on a JSON-decoded value: `KeyError` on a dict without the
key, `TypeError` when `x` is not a dict. -/
def pyIndex (j : JValue) (k : String) : Except PyExn JValue :=
  match j with
  | .obj entries =>
      match entries with
      | [] => .error (.keyError k)
      | (k', v) :: rest => if k' = k then .ok v else pyIndex (.obj rest) k
  | _ => .error .typeError

/-- Python iteration `for x in v` over a JSON-decoded value: a list yields its
elements, a string its one-character substrings, a dict its keys; numbers,
booleans and `None` raise `TypeError`. -/
def pyIter (j : JValue) : Except PyExn (List JValue) :=
  match j with
  | .arr xs => .ok xs
  | .str s => .ok (s.data.map (fun c => .str (String.mk [c])))
  | .obj entries => .ok (entries.map (fun kv => .str kv.1))
  | _ => .error .typeError

/-- Python truthiness of a JSON-decoded value. -/
def pyTruthy (j : JValue) : Bool :=
  match j with
  | .null => false
  | .bool b => b
  | .num q => q ≠ 0
  | .str s => s ≠ ""
  | .arr xs => !xs.isEmpty
  | .obj entries => !entries.isEmpty

/-- Decimal string accepted by Python's `float(...)`: optional sign, digits,
optional fractional part.  (Python also accepts forms such as `"1e3"`,
`"inf"`, or leading whitespace; no claim depends on those, and strings outside
the simple decimal form are treated as unparsable.) -/
def parseDecimal (s : String) : Option ℚ :=
  let core (t : String) : Option ℚ :=
    match t.splitOn "." with
    | [a] => (a.toNat? ).map (fun n => (n : ℚ))
    | [a, b] =>
        match a.toNat? , b.toNat? with
        | some x, some y => some ((x : ℚ) + (y : ℚ) / ((10 : ℚ) ^ b.length))
        | _, _ => none
    | _ => none
  if s.startsWith "-" then (core (s.drop 1)).map (fun q => -q)
  else core s

/-- Python `float(x)` on a JSON-decoded value: numbers pass through, booleans
become `0`/`1`, numeric strings are parsed (`ValueError` otherwise), and
`None`/lists/dicts raise `TypeError`. -/
def pyFloat (j : JValue) : Except PyExn ℚ :=
  match j with
  | .num q => .ok q
  | .bool b => .ok (if b then 1 else 0)
  | .str s =>
      match parseDecimal s with
      | some q => .ok q
      | none => .error (.valueError ("could not convert string to float: " ++ s))
  | _ => .error .typeError

mutual
/-- Python `str(x)` on a JSON-decoded value (with `pyStrList`/`pyStrObj` for
the comma-separated container bodies).  Container and numeric formatting is
abbreviated (e.g. rationals print in `p/q` form rather than Python float
notation, and Python's quoting inside containers is omitted); no claim depends
on the exact text of these cases. -/
def pyStr : JValue → String
  | .null => "None"
  | .bool true => "True"
  | .bool false => "False"
  | .num q => toString q
  | .str s => s
  | .arr xs => "[" ++ pyStrList xs ++ "]"
  | .obj entries => "\x7b" ++ pyStrObj entries ++ "\x7d"

def pyStrList : List JValue → String
  | [] => ""
  | [x] => pyStr x
  | x :: xs => pyStr x ++ ", " ++ pyStrList xs

def pyStrObj : List (String × JValue) → String
  | [] => ""
  | [(k, v)] => k ++ ": " ++ pyStr v
  | (k, v) :: rest => k ++ ": " ++ pyStr v ++ ", " ++ pyStrObj rest
end

/-- Python `x == "<s>"` on a JSON-decoded value: `True` exactly for the equal
string (equality across types is `False` in Python). -/
def jEqStr (j : JValue) (s : String) : Bool :=
  match j with
  | .str t => t = s
  | _ => false

/-- Does a JSON object have the given top-level key? -/
def hasKey (j : JValue) (k : String) : Bool :=
  match j with
  | .obj entries => entries.any (fun kv => kv.1 == k)
  | _ => false

mutual
/-- No object anywhere inside the value carries a `"summary"` key
(`summaryFreeList`/`summaryFreeObj` handle the container bodies). -/
def summaryFree : JValue → Bool
  | .arr xs => summaryFreeList xs
  | .obj entries => summaryFreeObj entries
  | _ => true

def summaryFreeList : List JValue → Bool
  | [] => true
  | x :: xs => summaryFree x && summaryFreeList xs

def summaryFreeObj : List (String × JValue) → Bool
  | [] => true
  | (k, v) :: rest => (decide (k ≠ "summary")) && summaryFree v && summaryFreeObj rest
end

/-! ## HTTP call pipeline

`requests.post`/`requests.get` followed by `response.raise_for_status()` and
`response.json()`, shared by every adapter. -/

/-- The `requests.post`/`requests.get` call itself: a connection error or a
timeout raises a `RequestException` subclass; otherwise a response object
(status, text, JSON decoding of the text) is produced. -/
def doRequest (o : Outcome) : Except PyExn (Nat × String × Option JValue) :=
  match o with
  | .netError msg => .error (.requestExn msg)
  | .timeout msg => .error (.requestExn msg)
  | .response status text json => .ok (status, text, json)

/-- Message of the `HTTPError` raised by `raise_for_status` (the real text is
`"<code> Client Error: ..."`; only its non-emptiness matters to any claim). -/
def httpErrMsg (status : Nat) : String :=
  toString status ++ " Error"

/-- `response.raise_for_status()`: raises `HTTPError` (a `RequestException`)
exactly for status codes in `[400, 600)`. -/
def raiseForStatus (status : Nat) : Except PyExn Unit :=
  if 400 ≤ status ∧ status < 600 then .error (.requestExn (httpErrMsg status))
  else .ok ()

/-- `response.json()`: raises `requests.exceptions.JSONDecodeError` (a
`RequestException`) when the body is not valid JSON. -/
def respJson (json : Option JValue) : Except PyExn JValue :=
  match json with
  | some j => .ok j
  | none => .error (.requestExn "Expecting value: line 1 column 1 (char 0)")

/-- The three-step prefix common to every adapter: perform the call, check the
status, decode the body. -/
def fetchJson (o : Outcome) : Except PyExn JValue := do
  let r ← doRequest o
  let _ ← raiseForStatus r.1
  respJson r.2.2

/-- The `except requests.exceptions.RequestException` handler wrapped around
each web provider's body: that exception class becomes an empty result list,
anything else propagates. -/
def catchRequestExn (r : Except PyExn (List JValue)) : Except PyExn (List JValue) :=
  match r with
  | .error (.requestExn _) => .ok []
  | r => r

namespace SearchEngine

/-- Constant placeholder relevance used by all six web providers
(`"distance": 0.9` in the source). -/
def placeholderScore : ℚ := 9 / 10

/-- Body of the `try:` block of `SearchEngine.search_tavily`
(`search_engine.py` lines 24-38): parse `results[]`, map `content`/`url`. -/
def tavilyBody (o : Outcome) : Except PyExn (List JValue) := do
  let searchResults ← fetchJson o
  let rs ← pyGetD searchResults "results" (.arr [])
  let items ← pyIter rs
  items.mapM (fun r => do
    let content ← pyGet r "content"
    let url ← pyGet r "url"
    pure (JValue.obj [("file_name", .str "Tavily"), ("chunk_text", content),
      ("distance", .num placeholderScore), ("search_type", .str "web"), ("url", url)]))

/-- `SearchEngine.search_tavily` (`search_engine.py` lines 16-41). -/
def search_tavily (query : String) (o : Outcome) : Except PyExn (List JValue) :=
  catchRequestExn (tavilyBody o)

/-- Body of the `try:` block of `SearchEngine.search_serper`
(`search_engine.py` lines 55-69): parse `organic[]`, map `snippet`/`link`. -/
def serperBody (o : Outcome) : Except PyExn (List JValue) := do
  let searchResults ← fetchJson o
  let rs ← pyGetD searchResults "organic" (.arr [])
  let items ← pyIter rs
  items.mapM (fun r => do
    let snippet ← pyGet r "snippet"
    let link ← pyGet r "link"
    pure (JValue.obj [("file_name", .str "Serper"), ("chunk_text", snippet),
      ("distance", .num placeholderScore), ("search_type", .str "web"), ("url", link)]))

/-- `SearchEngine.search_serper` (`search_engine.py` lines 43-72). -/
def search_serper (query : String) (o : Outcome) : Except PyExn (List JValue) :=
  catchRequestExn (serperBody o)

/-- Body of the `try:` block of `SearchEngine.search_bing`
(`search_engine.py` lines 79-93): parse `webPages.value[]`, map
`snippet`/`displayUrl`. -/
def bingBody (o : Outcome) : Except PyExn (List JValue) := do
  let searchResults ← fetchJson o
  let webPages ← pyGetD searchResults "webPages" (.obj [])
  let rs ← pyGetD webPages "value" (.arr [])
  let items ← pyIter rs
  items.mapM (fun r => do
    let snippet ← pyGet r "snippet"
    let displayUrl ← pyGet r "displayUrl"
    pure (JValue.obj [("file_name", .str "Bing"), ("chunk_text", snippet),
      ("distance", .num placeholderScore), ("search_type", .str "web"), ("url", displayUrl)]))

/-- `SearchEngine.search_bing` (`search_engine.py` lines 74-96). -/
def search_bing (query : String) (o : Outcome) : Except PyExn (List JValue) :=
  catchRequestExn (bingBody o)

/-- Body of the `try:` block of `SearchEngine.search_google`
(`search_engine.py` lines 106-120): parse `items[]`, map `snippet`/`link`. -/
def googleBody (o : Outcome) : Except PyExn (List JValue) := do
  let searchResults ← fetchJson o
  let rs ← pyGetD searchResults "items" (.arr [])
  let items ← pyIter rs
  items.mapM (fun r => do
    let snippet ← pyGet r "snippet"
    let link ← pyGet r "link"
    pure (JValue.obj [("file_name", .str "Google"), ("chunk_text", snippet),
      ("distance", .num placeholderScore), ("search_type", .str "web"), ("url", link)]))

/-- `SearchEngine.search_google` (`search_engine.py` lines 98-123). -/
def search_google (query : String) (o : Outcome) : Except PyExn (List JValue) :=
  catchRequestExn (googleBody o)

/-- Body of the `try:` block of `SearchEngine.search_linkup`
(`search_engine.py` lines 136-150): parse `results[]`, map `content`/`url`. -/
def linkupBody (o : Outcome) : Except PyExn (List JValue) := do
  let searchResults ← fetchJson o
  let rs ← pyGetD searchResults "results" (.arr [])
  let items ← pyIter rs
  items.mapM (fun r => do
    let content ← pyGet r "content"
    let url ← pyGet r "url"
    pure (JValue.obj [("file_name", .str "Linkup"), ("chunk_text", content),
      ("distance", .num placeholderScore), ("search_type", .str "web"), ("url", url)]))

/-- `SearchEngine.search_linkup` (`search_engine.py` lines 125-153). -/
def search_linkup (query : String) (o : Outcome) : Except PyExn (List JValue) :=
  catchRequestExn (linkupBody o)

/-- Body of the `try:` block of `SearchEngine.search_exa`
(`search_engine.py` lines 172-186): parse `results[]`, map `summary`/`url`. -/
def exaBody (o : Outcome) : Except PyExn (List JValue) := do
  let searchResults ← fetchJson o
  let rs ← pyGetD searchResults "results" (.arr [])
  let items ← pyIter rs
  items.mapM (fun r => do
    let summary ← pyGet r "summary"
    let url ← pyGet r "url"
    pure (JValue.obj [("file_name", .str "Exa"), ("chunk_text", summary),
      ("distance", .num placeholderScore), ("search_type", .str "web"), ("url", url)]))

/-- `SearchEngine.search_exa` (`search_engine.py` lines 155-189). -/
def search_exa (query : String) (o : Outcome) : Except PyExn (List JValue) :=
  catchRequestExn (exaBody o)

/-- `SearchEngine.search` — the dispatcher (`search_engine.py` lines
192-206): route on the engine name, unrecognized names yield `[]`. -/
def search (engine : String) (query : String) (o : Outcome) : Except PyExn (List JValue) :=
  if engine = "tavily" then search_tavily query o
  else if engine = "serper" then search_serper query o
  else if engine = "bing" then search_bing query o
  else if engine = "google" then search_google query o
  else if engine = "linkup" then search_linkup query o
  else if engine = "exa" then search_exa query o
  else .ok []

end SearchEngine

namespace KnowledgeBase

/-- `KnowledgeBase.normalize_result` (`knowledge_base.py` lines 26-34):
normalize one raw item (a dict, given as its entry list) into the fixed
five-field record.  `float(...)` may raise `ValueError`/`TypeError`, which the
caller catches. -/
def normalize_result (item : List (String × JValue)) : Except PyExn JValue := do
  let file_name := pyStr (dictGet item "file_name" (.str "Unknown"))
  let chunk_text := pyStr (dictGet item "chunk_text" (.str ""))
  let distance ← pyFloat (dictGet item "distance" (.num 0))
  let search_type := pyStr (dictGet item "search_type" (.str "vector"))
  let relevance_score ← pyFloat (dictGet item "relevance_score" (.num 0))
  pure (JValue.obj [("file_name", .str file_name), ("chunk_text", .str chunk_text),
    ("distance", .num distance), ("search_type", .str search_type),
    ("relevance_score", .num relevance_score)])

/-- The normalization loop of `KnowledgeBase.search` (`knowledge_base.py`
lines 70-78): keep dict items whose normalization does not raise
(`ValueError`/`TypeError` are caught and the item skipped); non-dict items are
skipped by the `isinstance` guard. -/
def normalizeLoop : List JValue → List JValue
  | [] => []
  | .obj entries :: rest =>
      match normalize_result entries with
      | .ok v => v :: normalizeLoop rest
      | .error _ => normalizeLoop rest
  | _ :: rest => normalizeLoop rest

/-- Body of the `try:` block of `KnowledgeBase.search` (`knowledge_base.py`
lines 46-81): POST the fixed payload, decode, validate the `results` list,
normalize and cap at 5 items. -/
def searchBody (o : Outcome) : Except PyExn JValue := do
  let result ← fetchJson o
  let rawResults ← pyGetD result "results" (.arr [])
  match rawResults with
  | .arr xs => pure (JValue.obj [("results", .arr (normalizeLoop (xs.take 5)))])
  | _ => pure (JValue.obj [("results", .arr [])])

/-- `KnowledgeBase.search` (`knowledge_base.py` lines 36-88): the
`except requests.Timeout` and `except requests.RequestException` handlers
both return `{"results": []}`; any other exception propagates. -/
def search (query : String) (o : Outcome) : Except PyExn JValue :=
  match searchBody o with
  | .error (.requestExn _) => .ok (JValue.obj [("results", .arr [])])
  | r => r

end KnowledgeBase

/-- Python `str(e)` for a raised exception (`AttributeError`/`TypeError`
texts are abbreviated — no claim depends on them). -/
def exnMsg (e : PyExn) : String :=
  match e with
  | .requestExn msg => msg
  | .attributeError => "object has no attribute"
  | .typeError => "type error"
  | .valueError msg => msg
  | .keyError k => k

namespace WebScraper

/-- `WebScraper.scrape_url` (`web_scraper.py` lines 18-45): `requests.get`
then `raise_for_status`; success yields `{url, content: response.text,
status: "success"}`, and the `except requests.RequestException as e` handler
yields `{url, error: str(e), status: "failed"}`.  Total — it never raises
(the body raises only `RequestException` subclasses, all caught). -/
def scrape_url (url : String) (o : Outcome) : JValue :=
  match (do
      let r ← doRequest o
      let _ ← raiseForStatus r.1
      pure r.2.1 : Except PyExn String) with
  | .ok text =>
      .obj [("url", .str url), ("content", .str text), ("status", .str "success")]
  | .error e =>
      .obj [("url", .str url), ("error", .str (exnMsg e)), ("status", .str "failed")]

end WebScraper

/-! ## The note store and the protocol gateway (`server.py`) -/

/-- The process-wide note map `notes: dict[str, str]` (`server.py` line 26),
modelled as its ordered entry list (Python dicts preserve insertion order and
the server only ever inserts or overwrites). -/
def NoteStore : Type := List (String × String)

/-- `notes[name] = content` (`server.py` line 248): overwrite the first
matching key in place, or append a fresh entry. -/
def NoteStore.add (st : NoteStore) (name content : String) : NoteStore :=
  match st with
  | [] => [(name, content)]
  | (k, v) :: rest =>
      if k = name then (name, content) :: rest
      else (k, v) :: NoteStore.add rest name content

/-- `name in notes` / `notes[name]` (`server.py` lines 312-315) as one
lookup. -/
def NoteStore.get (st : NoteStore) (name : String) : Option String :=
  match st with
  | [] => none
  | (k, v) :: rest => if k = name then some v else NoteStore.get rest name

/-- Python `s.lstrip("/")`: drop every leading `'/'`. -/
def lstripSlashes (s : String) : String :=
  String.mk (s.data.dropWhile (fun c => c = '/'))

/-- Characters of a note name on which pydantic `AnyUrl` parsing of
`note://internal/<name>` is the identity: the URL-unreserved set (ASCII
letters, digits, `-`, `_`, `.`, `~`), a conservative subset of what the
WHATWG path parser passes through without percent-encoding or splitting. -/
def isUriSafeChar (c : Char) : Bool :=
  c.isAlphanum || c = '-' || c = '_' || c = '.' || c = '~'

/-- Names whose resource URI `note://internal/<name>` parses back to the
path `"/" ++ name` verbatim: every character URL-unreserved (so no `?` query
split, no `#` fragment split, no percent-encoding, no `/` segment boundary)
and not one of the dot segments `.`/`..` (which WHATWG path normalization
removes). -/
def uriSafeName (n : String) : Bool :=
  n.data.all isUriSafeChar && (decide (n ≠ ".")) && (decide (n ≠ ".."))

/-- The path component pydantic `AnyUrl` produces for `note://internal/<name>`
(the URI built by `handle_list_resources`, `server.py` line 294), modelled
only on the domain where the parse is the identity: for a `uriSafeName` the
path is literally `"/" ++ name`.  Names outside this set are not modelled —
there the parser rewrites the path (e.g. `"a?b"` parses to path `"/a"` with
query `"b"`, `"a#b"` loses its fragment, `"a b"` percent-encodes to
`"/a%20b"`, and `"."`/`".."` normalize away). -/
def parsedNotePath (name : String) : Option String :=
  if uriSafeName name then some ("/" ++ name) else none

/-- `handle_read_resource` (`server.py` lines 302-316), on the scheme and
path of the already-parsed URI: reject non-`note` schemes, strip leading
slashes from the path, look the name up, raise `ValueError` when absent. -/
def handle_read_resource (scheme : String) (path : Option String) (notes : NoteStore) :
    Except PyExn String :=
  if scheme ≠ "note" then .error (.valueError ("Unsupported URI scheme: " ++ scheme))
  else
    match path with
    | some p =>
        let name := lstripSlashes p
        match NoteStore.get notes name with
        | some content => .ok content
        | none => .error (.valueError ("Note not found: " ++ name))
    | none => .error (.valueError "Note not found: None")

/-- `arguments.get(k)` on the tool-call argument mapping (argument values are
strings for every declared tool schema). -/
def argGet (args : List (String × String)) (k : String) : Option String :=
  match args with
  | [] => none
  | (k', v) :: rest => if k' = k then some v else argGet rest k

/-- Python falsiness of `arguments.get(k)`: absent (`None`) or the empty
string. -/
def strOptFalsy (v : Option String) : Bool :=
  match v with
  | none => true
  | some s => s = ""

/-- Result of one `handle_call_tool` invocation: the returned text blocks (or
the exception that propagated), the note store afterwards, and the outbound
HTTP endpoints called while handling. -/
structure ToolOutcome where
  result : Except PyExn (List String)
  notes : NoteStore
  calls : List String

/-- Text block built for one knowledge-base item (`server.py` lines
172-178). -/
def formatKBItem (entries : List (String × JValue)) : String :=
  "Source: " ++ pyStr (dictGet entries "file_name" (.str "Unknown")) ++ "\n" ++
  "Content: " ++ pyStr (dictGet entries "chunk_text" (.str "")) ++ "\n" ++
  "Distance: " ++ pyStr (dictGet entries "distance" (.str "N/A")) ++ "\n" ++
  "Search Type: " ++ pyStr (dictGet entries "search_type" (.str "N/A")) ++ "\n" ++
  "Relevance: " ++ pyStr (dictGet entries "relevance_score" (.str "N/A")) ++ "\n"

/-- The knowledge-search formatting loop (`server.py` lines 163-183):
non-dict items are skipped; formatting itself cannot raise. -/
def formatKBResults : List JValue → List String
  | [] => []
  | .obj entries :: rest => formatKBItem entries :: formatKBResults rest
  | _ :: rest => formatKBResults rest

/-- Text block built for one web-search record (`server.py` line 275):
`result['file_name']` etc. are dict indexing and may raise `KeyError`. -/
def formatSearchResult (r : JValue) : Except PyExn String := do
  let fileName ← pyIndex r "file_name"
  let url ← pyIndex r "url"
  let chunkText ← pyIndex r "chunk_text"
  pure ("Source: " ++ pyStr fileName ++ "\nURL: " ++ pyStr url ++
    "\nContent: " ++ pyStr chunkText ++ "\n")

/-- Endpoint contacted by the dispatcher for a given engine name (empty for
unrecognized names — no outbound call is made). -/
def searchCalls (engine : String) : List String :=
  if engine = "tavily" then ["https://api.tavily.com/search"]
  else if engine = "serper" then ["https://google.serper.dev/search"]
  else if engine = "bing" then ["https://api.bing.microsoft.com/v7.0/search"]
  else if engine = "google" then ["https://www.googleapis.com/customsearch/v1"]
  else if engine = "linkup" then ["https://api.linkup.so/v1/search"]
  else if engine = "exa" then ["https://api.exa.ai/search"]
  else []

/-- The `knowledge-search` branch of `handle_call_tool` (`server.py` lines
126-202): validate the query (soft error text), call the knowledge base with
every exception caught into a `"Search failed: ..."` block, then validate the
response shape and format the items. -/
def knowledgeSearchBranch (args : List (String × String)) (o : Outcome)
    (notes : NoteStore) : ToolOutcome :=
  match argGet args "query" with
  | none => ⟨.ok ["Missing query parameter"], notes, []⟩
  | some query =>
      if query = "" then ⟨.ok ["Missing query parameter"], notes, []⟩
      else
        match KnowledgeBase.search query o with
        | .error e => ⟨.ok ["Search failed: " ++ exnMsg e], notes, ["knowledge-base"]⟩
        | .ok result =>
            match result with
            | .obj entries =>
                match dictGet entries "results" (.arr []) with
                | .arr items =>
                    match formatKBResults items with
                    | [] => ⟨.ok ["No results found in knowledge base"], notes, ["knowledge-base"]⟩
                    | formatted => ⟨.ok formatted, notes, ["knowledge-base"]⟩
                | _ => ⟨.ok ["Invalid results format from knowledge base"], notes, ["knowledge-base"]⟩
            | _ => ⟨.ok ["Invalid response from knowledge base"], notes, ["knowledge-base"]⟩

/-- `handle_call_tool` (`server.py` lines 116-287).  Branch order follows the
source: the falsiness check on `arguments`, then `knowledge-search`,
`scrape-url`, `add-note`, `search`, and `raise ValueError` for unknown tools.
The trailing `except Exception ... raise` re-raises unchanged and is the
identity of this model. -/
def handle_call_tool (name : String) (arguments : Option (List (String × String)))
    (o : Outcome) (notes : NoteStore) : ToolOutcome :=
  if arguments = none ∨ arguments = some [] then
    ⟨.error (.valueError "Missing arguments"), notes, []⟩
  else
    let args := arguments.getD []
    if name = "knowledge-search" then
      knowledgeSearchBranch args o notes
    else if name = "scrape-url" then
      match argGet args "url" with
      | none => ⟨.error (.valueError "Missing URL"), notes, []⟩
      | some url =>
          if url = "" then ⟨.error (.valueError "Missing URL"), notes, []⟩
          else
            let result := WebScraper.scrape_url url o
            if ¬ pyTruthy result then
              ⟨.ok ["Failed to scrape " ++ url ++ ": Unknown error"], notes, ["https://r.jina.ai/" ++ url]⟩
            else
              match pyGetD result "status" .null with
              | .error e => ⟨.error e, notes, ["https://r.jina.ai/" ++ url]⟩
              | .ok st =>
                  if jEqStr st "success" then
                    match pyGetD result "content" (.str "") with
                    | .error e => ⟨.error e, notes, ["https://r.jina.ai/" ++ url]⟩
                    | .ok content =>
                        ⟨.ok ["Successfully scraped content from " ++ url ++ ":\n\n" ++ pyStr content],
                          notes, ["https://r.jina.ai/" ++ url]⟩
                  else
                    match pyGetD result "error" (.str "Unknown error") with
                    | .error e => ⟨.error e, notes, ["https://r.jina.ai/" ++ url]⟩
                    | .ok err =>
                        ⟨.ok ["Failed to scrape " ++ url ++ ": " ++ pyStr err],
                          notes, ["https://r.jina.ai/" ++ url]⟩
    else if name = "add-note" then
      if strOptFalsy (argGet args "name") ∨ strOptFalsy (argGet args "content") then
        ⟨.error (.valueError "Missing name or content"), notes, []⟩
      else
        let noteName := (argGet args "name").getD ""
        let content := (argGet args "content").getD ""
        ⟨.ok ["Added note '" ++ noteName ++ "' with content: " ++ content],
          NoteStore.add notes noteName content, []⟩
    else if name = "search" then
      if strOptFalsy (argGet args "engine") ∨ strOptFalsy (argGet args "query") then
        ⟨.error (.valueError "Missing engine or query"), notes, []⟩
      else
        let engine := (argGet args "engine").getD ""
        let query := (argGet args "query").getD ""
        match SearchEngine.search engine query o with
        | .error e => ⟨.error e, notes, searchCalls engine⟩
        | .ok results =>
            match results.mapM formatSearchResult with
            | .error e => ⟨.error e, notes, searchCalls engine⟩
            | .ok formatted => ⟨.ok formatted, notes, searchCalls engine⟩
    else
      ⟨.error (.valueError ("Unknown tool: " ++ name)), notes, []⟩

/-! ## Shape predicates and failure classes -/

/-- Shape of one normalized knowledge-base item: exactly the keys
`file_name`, `chunk_text`, `search_type` (strings) and `distance`,
`relevance_score` (numbers), in the order the source builds them. -/
def itemShapeOK (j : JValue) : Bool :=
  match j with
  | .obj [("file_name", .str _), ("chunk_text", .str _), ("distance", .num _),
      ("search_type", .str _), ("relevance_score", .num _)] => true
  | _ => false

/-- Shape of a knowledge-base search result: a mapping with the single key
`results` holding a list of at most 5 well-shaped items. -/
def kbShapeOK (j : JValue) : Bool :=
  match j with
  | .obj [("results", .arr items)] => items.length ≤ 5 && items.all itemShapeOK
  | _ => false

/-- The upstream outcomes absorbed by the web providers' exception handler:
connection error, timeout, 4xx/5xx status, or a body that is not valid
JSON — exactly the cases where the shared pipeline raises
`RequestException`. -/
def webFailure (o : Outcome) : Bool :=
  match o with
  | .netError _ => true
  | .timeout _ => true
  | .response status _ json => (400 ≤ status && status < 600) || json.isNone

/-! ## Helper lemmas -/

theorem fetchJson_of_webFailure (o : Outcome) (h : webFailure o = true) :
    ∃ m, fetchJson o = .error (.requestExn m) := by
  cases o with
  | netError msg => exact ⟨msg, rfl⟩
  | timeout msg => exact ⟨msg, rfl⟩
  | response status text json =>
      simp only [webFailure, Bool.or_eq_true, Bool.and_eq_true, decide_eq_true_eq,
        Option.isNone_iff_eq_none] at h
      rcases h with ⟨h1, h2⟩ | h
      · refine ⟨httpErrMsg status, ?_⟩
        simp [fetchJson, doRequest, raiseForStatus, Bind.bind, Except.bind, h1, h2]
      · subst h
        by_cases hs : 400 ≤ status ∧ status < 600
        · exact ⟨httpErrMsg status, by simp [fetchJson, doRequest, raiseForStatus, Bind.bind, Except.bind, hs]⟩
        · exact ⟨"Expecting value: line 1 column 1 (char 0)",
            by simp [fetchJson, doRequest, raiseForStatus, respJson, Bind.bind, Except.bind, hs]⟩

theorem catchRequestExn_fetchJson_bind (o : Outcome) (h : webFailure o = true)
    (f : JValue → Except PyExn (List JValue)) :
    catchRequestExn (fetchJson o >>= f) = .ok [] := by
  obtain ⟨m, hm⟩ := fetchJson_of_webFailure o h
  simp [hm, catchRequestExn, Bind.bind, Except.bind]

theorem search_tavily_of_webFailure (q : String) (o : Outcome) (h : webFailure o = true) :
    SearchEngine.search_tavily q o = .ok [] := by
  simp only [SearchEngine.search_tavily, SearchEngine.tavilyBody]
  exact catchRequestExn_fetchJson_bind o h _

theorem search_serper_of_webFailure (q : String) (o : Outcome) (h : webFailure o = true) :
    SearchEngine.search_serper q o = .ok [] := by
  simp only [SearchEngine.search_serper, SearchEngine.serperBody]
  exact catchRequestExn_fetchJson_bind o h _

theorem search_bing_of_webFailure (q : String) (o : Outcome) (h : webFailure o = true) :
    SearchEngine.search_bing q o = .ok [] := by
  simp only [SearchEngine.search_bing, SearchEngine.bingBody]
  exact catchRequestExn_fetchJson_bind o h _

theorem search_google_of_webFailure (q : String) (o : Outcome) (h : webFailure o = true) :
    SearchEngine.search_google q o = .ok [] := by
  simp only [SearchEngine.search_google, SearchEngine.googleBody]
  exact catchRequestExn_fetchJson_bind o h _

theorem search_linkup_of_webFailure (q : String) (o : Outcome) (h : webFailure o = true) :
    SearchEngine.search_linkup q o = .ok [] := by
  simp only [SearchEngine.search_linkup, SearchEngine.linkupBody]
  exact catchRequestExn_fetchJson_bind o h _

theorem search_exa_of_webFailure (q : String) (o : Outcome) (h : webFailure o = true) :
    SearchEngine.search_exa q o = .ok [] := by
  simp only [SearchEngine.search_exa, SearchEngine.exaBody]
  exact catchRequestExn_fetchJson_bind o h _

theorem normalize_result_shape (entries : List (String × JValue)) (v : JValue)
    (h : KnowledgeBase.normalize_result entries = .ok v) : itemShapeOK v = true := by
  unfold KnowledgeBase.normalize_result at h
  cases h1 : pyFloat (dictGet entries "distance" (.num 0)) with
  | error e => simp [h1, Bind.bind, Except.bind] at h
  | ok q1 =>
      cases h2 : pyFloat (dictGet entries "relevance_score" (.num 0)) with
      | error e => simp [h1, h2, Bind.bind, Except.bind] at h
      | ok q2 =>
          simp only [h1, h2, Bind.bind, Except.bind, Pure.pure, Except.pure, Except.ok.injEq] at h
          subst h
          rfl

theorem normalize_result_summaryFree (entries : List (String × JValue)) (v : JValue)
    (h : KnowledgeBase.normalize_result entries = .ok v) : summaryFree v = true := by
  unfold KnowledgeBase.normalize_result at h
  cases h1 : pyFloat (dictGet entries "distance" (.num 0)) with
  | error e => simp [h1, Bind.bind, Except.bind] at h
  | ok q1 =>
      cases h2 : pyFloat (dictGet entries "relevance_score" (.num 0)) with
      | error e => simp [h1, h2, Bind.bind, Except.bind] at h
      | ok q2 =>
          simp only [h1, h2, Bind.bind, Except.bind, Pure.pure, Except.pure, Except.ok.injEq] at h
          subst h
          simp [summaryFree, summaryFreeObj]

theorem normalizeLoop_length (xs : List JValue) :
    (KnowledgeBase.normalizeLoop xs).length ≤ xs.length := by
  induction xs with
  | nil => simp [KnowledgeBase.normalizeLoop]
  | cons x rest ih =>
      cases x with
      | obj entries =>
          simp only [KnowledgeBase.normalizeLoop]
          cases KnowledgeBase.normalize_result entries with
          | ok v => simpa using Nat.succ_le_succ ih
          | error e => exact Nat.le_succ_of_le ih
      | null => exact Nat.le_succ_of_le ih
      | bool b => exact Nat.le_succ_of_le ih
      | num q => exact Nat.le_succ_of_le ih
      | str s => exact Nat.le_succ_of_le ih
      | arr elems => exact Nat.le_succ_of_le ih

theorem normalizeLoop_shape (xs : List JValue) :
    (KnowledgeBase.normalizeLoop xs).all itemShapeOK = true := by
  induction xs with
  | nil => simp [KnowledgeBase.normalizeLoop]
  | cons x rest ih =>
      cases x with
      | obj entries =>
          simp only [KnowledgeBase.normalizeLoop]
          cases hn : KnowledgeBase.normalize_result entries with
          | ok v => simp [List.all_cons, normalize_result_shape entries v hn, ih]
          | error e => exact ih
      | null => exact ih
      | bool b => exact ih
      | num q => exact ih
      | str s => exact ih
      | arr elems => exact ih

theorem normalizeLoop_summaryFree (xs : List JValue) :
    summaryFreeList (KnowledgeBase.normalizeLoop xs) = true := by
  induction xs with
  | nil => simp [KnowledgeBase.normalizeLoop, summaryFreeList]
  | cons x rest ih =>
      cases x with
      | obj entries =>
          simp only [KnowledgeBase.normalizeLoop]
          cases hn : KnowledgeBase.normalize_result entries with
          | ok v => simp [summaryFreeList, normalize_result_summaryFree entries v hn, ih]
          | error e => exact ih
      | null => exact ih
      | bool b => exact ih
      | num q => exact ih
      | str s => exact ih
      | arr elems => exact ih

theorem searchBody_ok_inv (o : Outcome) (w : JValue)
    (h : KnowledgeBase.searchBody o = .ok w) :
    kbShapeOK w = true ∧ summaryFree w = true := by
  unfold KnowledgeBase.searchBody at h
  cases hf : fetchJson o with
  | error e => simp [hf, Bind.bind, Except.bind] at h
  | ok j =>
      simp only [hf, Bind.bind, Except.bind] at h
      cases hg : pyGetD j "results" (.arr []) with
      | error e => simp [hg] at h
      | ok raw =>
          simp only [hg] at h
          cases raw with
          | arr xs =>
              simp only [Pure.pure, Except.pure, Except.ok.injEq] at h
              subst h
              constructor
              · simp only [kbShapeOK, Bool.and_eq_true, decide_eq_true_eq]
                refine ⟨?_, normalizeLoop_shape _⟩
                calc (KnowledgeBase.normalizeLoop (xs.take 5)).length
                    ≤ (xs.take 5).length := normalizeLoop_length _
                  _ ≤ 5 := by simp [List.length_take]
              · simp [summaryFree, summaryFreeObj, normalizeLoop_summaryFree]
          | null =>
              simp only [Pure.pure, Except.pure, Except.ok.injEq] at h
              subst h; constructor <;> rfl
          | bool b =>
              simp only [Pure.pure, Except.pure, Except.ok.injEq] at h
              subst h; constructor <;> rfl
          | num q =>
              simp only [Pure.pure, Except.pure, Except.ok.injEq] at h
              subst h; constructor <;> rfl
          | str s =>
              simp only [Pure.pure, Except.pure, Except.ok.injEq] at h
              subst h; constructor <;> rfl
          | obj entries =>
              simp only [Pure.pure, Except.pure, Except.ok.injEq] at h
              subst h; constructor <;> rfl

theorem kb_search_ok_inv (q : String) (o : Outcome) (v : JValue)
    (h : KnowledgeBase.search q o = .ok v) :
    kbShapeOK v = true ∧ summaryFree v = true := by
  unfold KnowledgeBase.search at h
  cases hb : KnowledgeBase.searchBody o with
  | error e =>
      cases e with
      | requestExn m =>
          simp only [hb, Except.ok.injEq] at h
          subst h; constructor <;> rfl
      | attributeError => simp [hb] at h
      | typeError => simp [hb] at h
      | valueError m => simp [hb] at h
      | keyError k => simp [hb] at h
  | ok w =>
      simp only [hb, Except.ok.injEq] at h
      subst h
      exact searchBody_ok_inv o w hb

theorem NoteStore.get_add_self (st : NoteStore) (n c : String) :
    NoteStore.get (NoteStore.add st n c) n = some c := by
  induction st with
  | nil => simp [NoteStore.add, NoteStore.get]
  | cons kv rest ih =>
      obtain ⟨k, v⟩ := kv
      by_cases hk : k = n
      · simp [NoteStore.add, NoteStore.get, hk]
      · simp [NoteStore.add, NoteStore.get, hk, ih]

theorem lstripSlashes_slash_append (n : String) (h : lstripSlashes n = n) :
    lstripSlashes ("/" ++ n) = n := by
  obtain ⟨l⟩ := n
  simp only [lstripSlashes] at *
  have hd : (("/" : String) ++ String.mk l).data = '/' :: l := rfl
  have hl : l.dropWhile (fun c => c = '/') = l := congrArg String.data h
  calc lstripSlashes (("/" : String) ++ String.mk l)
      = String.mk (('/' :: l).dropWhile (fun c => c = '/')) := by
        simp [lstripSlashes, hd]
    _ = String.mk (l.dropWhile (fun c => c = '/')) := by simp [List.dropWhile]
    _ = String.mk l := by rw [hl]

theorem lstripSlashes_of_uriSafe (n : String) (h : uriSafeName n = true) :
    lstripSlashes n = n := by
  obtain ⟨l⟩ := n
  simp only [uriSafeName, Bool.and_eq_true, List.all_eq_true] at h
  obtain ⟨⟨hall, _⟩, _⟩ := h
  cases l with
  | nil => rfl
  | cons c rest =>
      have hc : isUriSafeChar c = true := hall c (by simp)
      have hslash : ¬ (c = '/') := by
        intro hcc
        rw [hcc] at hc
        exact absurd hc (by decide)
      simp [lstripSlashes, List.dropWhile, hslash]

/-! ## Claims -/

/-- C1 (counterexample).  The claim says a knowledge-base timeout yields an
explicit failure record with `status=failed` and a non-empty `error`.  In the
code (`knowledge_base.py` lines 83-85) the `except requests.Timeout` handler
returns `{"results": []}` — byte-identical to the zero-result success value
and carrying neither an `error` nor a `status` key. -/
theorem kb_timeout_error_record_refuted :
    KnowledgeBase.search "q" (.timeout "HTTPConnectionPool: Read timed out.") =
      .ok (JValue.obj [("results", JValue.arr [])]) ∧
    KnowledgeBase.search "q"
        (.response 200 "" (some (JValue.obj [("results", JValue.arr [])]))) =
      .ok (JValue.obj [("results", JValue.arr [])]) ∧
    hasKey (JValue.obj [("results", JValue.arr [])]) "error" = false ∧
    hasKey (JValue.obj [("results", JValue.arr [])]) "status" = false := by
  refine ⟨rfl, rfl, rfl, rfl⟩

/-- C1 (amended).  On timeout, `KnowledgeBase.search` returns `{"results":
[]}` for every query — the same value as a zero-result success, with no
`error` or `status` field; the knowledge base collapses timeouts to an empty
result list exactly like the web providers. -/
theorem kb_search_timeout_returns_empty_results (q m : String) :
    KnowledgeBase.search q (.timeout m) = .ok (JValue.obj [("results", JValue.arr [])]) :=
  rfl

/-- C2 (counterexample).  The claim says the web providers never raise on a
malformed response body.  A 200 response whose body is the valid JSON `42`
(not an object) makes `search_results.get('results', [])` raise an uncaught
`AttributeError` (`search_engine.py` line 30): only
`requests.exceptions.RequestException` is caught. -/
theorem search_tavily_raises_on_nonobject_body :
    SearchEngine.search_tavily "q" (.response 200 "42" (some (JValue.num 42))) =
      .error .attributeError :=
  rfl

/-- C2 (amended).  Each web provider's search absorbs the transport failures
its handler actually covers — network error, timeout, a 4xx/5xx status, or a
body that fails JSON parsing (`webFailure`) — and returns an empty list; a
body that parses as JSON of an unexpected shape instead raises an uncaught
`AttributeError`/`TypeError` (see the counterexample), and 1xx/3xx statuses
are treated as success. -/
theorem web_search_absorbs_transport_failures (q : String) (o : Outcome)
    (h : webFailure o = true) :
    SearchEngine.search_tavily q o = .ok [] ∧
    SearchEngine.search_serper q o = .ok [] ∧
    SearchEngine.search_bing q o = .ok [] ∧
    SearchEngine.search_google q o = .ok [] ∧
    SearchEngine.search_linkup q o = .ok [] ∧
    SearchEngine.search_exa q o = .ok [] :=
  ⟨search_tavily_of_webFailure q o h, search_serper_of_webFailure q o h,
   search_bing_of_webFailure q o h, search_google_of_webFailure q o h,
   search_linkup_of_webFailure q o h, search_exa_of_webFailure q o h⟩

/-- C2 (witness): the amended theorem at a concrete network failure. -/
theorem web_search_absorbs_transport_failures_witness :
    SearchEngine.search_tavily "q" (.netError "connection refused") = .ok [] ∧
    SearchEngine.search_serper "q" (.netError "connection refused") = .ok [] ∧
    SearchEngine.search_bing "q" (.netError "connection refused") = .ok [] ∧
    SearchEngine.search_google "q" (.netError "connection refused") = .ok [] ∧
    SearchEngine.search_linkup "q" (.netError "connection refused") = .ok [] ∧
    SearchEngine.search_exa "q" (.netError "connection refused") = .ok [] :=
  web_search_absorbs_transport_failures "q" (.netError "connection refused") rfl

/-- C3 (counterexample).  The claim says a missing snippet/content field
yields an empty text string.  In the code (`search_engine.py` line 33) the
record stores `result.get('content')`, whose default is `None`: dispatching
to Tavily on a response whose single item is `{}` produces a record with
`chunk_text = None`, not `""`. -/
theorem dispatch_missing_snippet_null_text :
    SearchEngine.search "tavily" "q"
        (.response 200 "" (some (JValue.obj [("results", JValue.arr [JValue.obj []])]))) =
      .ok [JValue.obj [("file_name", .str "Tavily"), ("chunk_text", .null),
        ("distance", .num SearchEngine.placeholderScore), ("search_type", .str "web"),
        ("url", .null)]] ∧
    JValue.null ≠ JValue.str "" :=
  ⟨rfl, fun h => JValue.noConfusion h⟩

/-- C3 (amended).  Records are never rejected for missing optional data, but
the defaults differ from the claim: for the web providers behind
`SearchEngine.search`, a missing snippet/content or url is carried as `None`
(`JValue.null`), not an empty string, and the score (`distance`) is the
constant `0.9` regardless of the upstream item; the empty-string and `0.0`
defaults hold only in the knowledge-base normalizer
(`KnowledgeBase.normalize_result`). -/
theorem dispatch_total_defaults (q t : String) (kvs : List (String × JValue)) :
    SearchEngine.search "tavily" q
        (.response 200 t (some (JValue.obj [("results", JValue.arr [JValue.obj kvs])]))) =
      .ok [JValue.obj [("file_name", .str "Tavily"),
        ("chunk_text", dictGet kvs "content" .null),
        ("distance", .num SearchEngine.placeholderScore), ("search_type", .str "web"),
        ("url", dictGet kvs "url" .null)]] ∧
    SearchEngine.search "serper" q
        (.response 200 t (some (JValue.obj [("organic", JValue.arr [JValue.obj kvs])]))) =
      .ok [JValue.obj [("file_name", .str "Serper"),
        ("chunk_text", dictGet kvs "snippet" .null),
        ("distance", .num SearchEngine.placeholderScore), ("search_type", .str "web"),
        ("url", dictGet kvs "link" .null)]] ∧
    SearchEngine.search "bing" q
        (.response 200 t (some (JValue.obj
          [("webPages", JValue.obj [("value", JValue.arr [JValue.obj kvs])])]))) =
      .ok [JValue.obj [("file_name", .str "Bing"),
        ("chunk_text", dictGet kvs "snippet" .null),
        ("distance", .num SearchEngine.placeholderScore), ("search_type", .str "web"),
        ("url", dictGet kvs "displayUrl" .null)]] ∧
    SearchEngine.search "google" q
        (.response 200 t (some (JValue.obj [("items", JValue.arr [JValue.obj kvs])]))) =
      .ok [JValue.obj [("file_name", .str "Google"),
        ("chunk_text", dictGet kvs "snippet" .null),
        ("distance", .num SearchEngine.placeholderScore), ("search_type", .str "web"),
        ("url", dictGet kvs "link" .null)]] ∧
    SearchEngine.search "linkup" q
        (.response 200 t (some (JValue.obj [("results", JValue.arr [JValue.obj kvs])]))) =
      .ok [JValue.obj [("file_name", .str "Linkup"),
        ("chunk_text", dictGet kvs "content" .null),
        ("distance", .num SearchEngine.placeholderScore), ("search_type", .str "web"),
        ("url", dictGet kvs "url" .null)]] ∧
    SearchEngine.search "exa" q
        (.response 200 t (some (JValue.obj [("results", JValue.arr [JValue.obj kvs])]))) =
      .ok [JValue.obj [("file_name", .str "Exa"),
        ("chunk_text", dictGet kvs "summary" .null),
        ("distance", .num SearchEngine.placeholderScore), ("search_type", .str "web"),
        ("url", dictGet kvs "url" .null)]] ∧
    KnowledgeBase.normalize_result [] =
      .ok (JValue.obj [("file_name", .str "Unknown"), ("chunk_text", .str ""),
        ("distance", .num 0), ("search_type", .str "vector"),
        ("relevance_score", .num 0)]) := by
  refine ⟨rfl, rfl, rfl, rfl, rfl, rfl, ?_⟩
  simp [KnowledgeBase.normalize_result, dictGet, pyFloat, pyStr, Bind.bind,
    Except.bind, Pure.pure, Except.pure]

/-- C4.  Every value `KnowledgeBase.search` returns is summary-free: whatever
the raw response contained (a bulk top-level `summary` or a `summary` inside
an item), the result is rebuilt from the fixed five normalized fields under
the single `results` key, so no `summary` key survives anywhere in it. -/
theorem kb_search_strips_summary (q : String) (o : Outcome) (v : JValue)
    (h : KnowledgeBase.search q o = .ok v) : summaryFree v = true :=
  (kb_search_ok_inv q o v h).2

/-- C4 (witness): a successful response carrying a bulk `summary` key. -/
theorem kb_search_strips_summary_witness :
    summaryFree (JValue.obj [("results", JValue.arr [])]) = true :=
  kb_search_strips_summary "q"
    (.response 200 "" (some (JValue.obj [("results", JValue.arr []), ("summary", JValue.str "BULK")])))
    (JValue.obj [("results", JValue.arr [])]) rfl

/-- C5 (counterexample).  The claim quantifies over every name.  For the name
`"/a"` the note is stored (`NoteStore.get` finds it under `"/a"`), but the
resource URI `note://internal//a` parses to authority `internal` with path
`"//a"` (WHATWG parsing keeps empty path segments), and `handle_read_resource`
strips every leading slash (`server.py` line 311), looking up `"a"` instead —
so the read raises `ValueError` although the note was just added. -/
theorem note_slash_name_roundtrip_fails :
    NoteStore.get (NoteStore.add [] "/a" "c") "/a" = some "c" ∧
    handle_read_resource "note" (some "//a") (NoteStore.add [] "/a" "c") =
      .error (.valueError "Note not found: a") :=
  ⟨rfl, rfl⟩

/-- C5 (amended).  For every name the URI layer transports verbatim — all
characters URL-unreserved and not a dot segment (`uriSafeName`, under which
pydantic parses `note://internal/<name>` back to exactly the path
`"/" ++ name`): adding a note and then reading `note://internal/<name>`
returns exactly the stored content; a second add with the same name silently
overwrites and the later content is returned; and reading a name that was
never added raises `ValueError`.  Names outside this set are rewritten by URL
parsing (query/fragment split, percent-encoding, slash and dot-segment
normalization) before the lookup and need not round-trip — see the
counterexample. -/
theorem note_roundtrip (st : NoteStore) (n c c2 : String)
    (h : uriSafeName n = true) :
    handle_read_resource "note" (parsedNotePath n) (NoteStore.add st n c) = .ok c ∧
    handle_read_resource "note" (parsedNotePath n)
        (NoteStore.add (NoteStore.add st n c) n c2) = .ok c2 ∧
    (NoteStore.get st n = none →
      handle_read_resource "note" (parsedNotePath n) st =
        .error (.valueError ("Note not found: " ++ n))) := by
  have hn := lstripSlashes_slash_append n (lstripSlashes_of_uriSafe n h)
  refine ⟨?_, ?_, fun hg => ?_⟩
  · simp [handle_read_resource, parsedNotePath, h, hn, NoteStore.get_add_self]
  · simp [handle_read_resource, parsedNotePath, h, hn, NoteStore.get_add_self]
  · simp [handle_read_resource, parsedNotePath, h, hn, hg]

/-- C5 (witness): the amended theorem at a concrete URL-safe name. -/
theorem note_roundtrip_witness :
    handle_read_resource "note" (parsedNotePath "a") (NoteStore.add [] "a" "x") =
      .ok "x" :=
  (note_roundtrip [] "a" "x" "y" (by decide)).1

/-- C6.  `WebScraper.scrape_url` on any transport error (network failure,
timeout, 4xx/5xx status — exactly what the `RequestException` handler
catches) returns the record `{url, error: str(e), status: "failed"}` with no
`content` key; otherwise it returns `{url, content: response.text, status:
"success"}` with no `error` key and the content byte-for-byte equal to the
upstream body.  The exact record equalities pin the full key sets, so exactly
one of `content`/`error` is present, determined by `status`. -/
theorem scrape_url_contract (url m t : String) (s : Nat) (j : Option JValue) :
    WebScraper.scrape_url url (.netError m) =
      .obj [("url", .str url), ("error", .str m), ("status", .str "failed")] ∧
    WebScraper.scrape_url url (.timeout m) =
      .obj [("url", .str url), ("error", .str m), ("status", .str "failed")] ∧
    (400 ≤ s → s < 600 → WebScraper.scrape_url url (.response s t j) =
      .obj [("url", .str url), ("error", .str (httpErrMsg s)), ("status", .str "failed")]) ∧
    (¬ (400 ≤ s ∧ s < 600) → WebScraper.scrape_url url (.response s t j) =
      .obj [("url", .str url), ("content", .str t), ("status", .str "success")]) ∧
    hasKey (WebScraper.scrape_url url (.netError m)) "content" = false ∧
    (¬ (400 ≤ s ∧ s < 600) →
      hasKey (WebScraper.scrape_url url (.response s t j)) "error" = false) := by
  refine ⟨rfl, rfl, fun h1 h2 => ?_, fun hs => ?_, rfl, fun hs => ?_⟩
  · simp [WebScraper.scrape_url, doRequest, raiseForStatus, Bind.bind, Except.bind,
      exnMsg, h1, h2]
  · simp [WebScraper.scrape_url, doRequest, raiseForStatus, Bind.bind, Except.bind,
      Pure.pure, Except.pure, hs]
  · simp [WebScraper.scrape_url, doRequest, raiseForStatus, Bind.bind, Except.bind,
      Pure.pure, Except.pure, hs, hasKey]

/-- C6 (witness): the contract at a concrete network failure and a concrete
success. -/
theorem scrape_url_contract_witness :
    WebScraper.scrape_url "http://x" (.netError "boom") =
      .obj [("url", .str "http://x"), ("error", .str "boom"), ("status", .str "failed")] ∧
    WebScraper.scrape_url "http://x" (.response 200 "BODY" none) =
      .obj [("url", .str "http://x"), ("content", .str "BODY"), ("status", .str "success")] :=
  ⟨(scrape_url_contract "http://x" "boom" "BODY" 200 none).1,
   (scrape_url_contract "http://x" "boom" "BODY" 200 none).2.2.2.1 (by omega)⟩

/-- C7.  `SearchEngine.search` on any engine name outside the supported set
returns the empty list and never raises, for every query and every upstream
outcome (no outbound call is even reachable — the routing chain falls
through to the `else` branch). -/
theorem dispatch_unknown_engine_empty (engine q : String) (o : Outcome)
    (h : engine ∉ (["tavily", "serper", "bing", "google", "linkup", "exa"] : List String)) :
    SearchEngine.search engine q o = .ok [] := by
  simp only [List.mem_cons, List.not_mem_nil, or_false, not_or] at h
  obtain ⟨h1, h2, h3, h4, h5, h6⟩ := h
  unfold SearchEngine.search
  rw [if_neg h1, if_neg h2, if_neg h3, if_neg h4, if_neg h5, if_neg h6]

/-- C7 (witness): a concrete unsupported engine name. -/
theorem dispatch_unknown_engine_empty_witness :
    SearchEngine.search "duckduckgo" "q" (.timeout "t") = .ok [] :=
  dispatch_unknown_engine_empty "duckduckgo" "q" (.timeout "t") (by decide)

/-- C8.  For every tool name (valid or not), `handle_call_tool` with
`arguments` equal to `None` or to the empty mapping raises
`ValueError("Missing arguments")` before any routing or outbound call: the
result is that error for every upstream outcome, the note store is
unchanged, and the outbound-call trace is empty. -/
theorem call_tool_missing_arguments (name : String) (o : Outcome) (st : NoteStore) :
    handle_call_tool name none o st =
      ⟨.error (.valueError "Missing arguments"), st, []⟩ ∧
    handle_call_tool name (some []) o st =
      ⟨.error (.valueError "Missing arguments"), st, []⟩ :=
  ⟨rfl, rfl⟩

/-- C9.  Every value `KnowledgeBase.search` returns (on any outcome where it
returns rather than raises) is a mapping with the single key `results`
holding a list of at most 5 items, each with exactly the keys `file_name`,
`chunk_text`, `search_type` (strings) and `distance`, `relevance_score`
(numbers). -/
theorem kb_search_shape_invariant (q : String) (o : Outcome) (v : JValue)
    (h : KnowledgeBase.search q o = .ok v) : kbShapeOK v = true :=
  (kb_search_ok_inv q o v h).1

/-- C9 (witness): a successful response whose item omits most fields. -/
theorem kb_search_shape_invariant_witness :
    kbShapeOK (JValue.obj [("results", JValue.arr [JValue.obj
      [("file_name", .str "doc.txt"), ("chunk_text", .str ""),
       ("distance", .num 2), ("search_type", .str "vector"),
       ("relevance_score", .num 0)]])]) = true :=
  kb_search_shape_invariant "q"
    (.response 200 "" (some (JValue.obj [("results", JValue.arr [JValue.obj
      [("file_name", JValue.str "doc.txt"), ("distance", JValue.num 2)]])])))
    _ (by simp [KnowledgeBase.search, KnowledgeBase.searchBody,
      KnowledgeBase.normalizeLoop, KnowledgeBase.normalize_result, fetchJson,
      doRequest, raiseForStatus, respJson, pyGetD, dictGet, pyFloat, pyStr,
      Bind.bind, Except.bind, Pure.pure, Except.pure])

/-- C10.  Invoking `add-note` with an empty-string name or empty-string
content is rejected exactly like a missing argument — `ValueError("Missing
name or content")` is raised (`if not note_name or not content`, `server.py`
line 243) — and the note store is unchanged, so an empty note can never be
created or overwritten to empty. -/
theorem add_note_rejects_empty (n c : String) (o : Outcome) (st : NoteStore)
    (h : n = "" ∨ c = "") :
    handle_call_tool "add-note" (some [("name", n), ("content", c)]) o st =
      ⟨.error (.valueError "Missing name or content"), st, []⟩ := by
  rcases h with h | h <;> subst h <;>
    simp [handle_call_tool, argGet, strOptFalsy]

/-- C10 (witness): empty name with non-empty content. -/
theorem add_note_rejects_empty_witness :
    handle_call_tool "add-note" (some [("name", ""), ("content", "x")]) (.timeout "t") [] =
      ⟨.error (.valueError "Missing name or content"), [], []⟩ :=
  add_note_rejects_empty "" "x" (.timeout "t") [] (Or.inl rfl)
